import Mathlib

/-!
Shallow embedding of `src/mandala_grid.py` (the Mandala Grid personality
framework).  Python floats are modelled as exact rationals `ℚ`: every bias
occurring in the canonical data and in the comparison threshold is a short
decimal fraction, so rational arithmetic matches the Python behaviour on the
inputs of interest.  The stable Python sort `sorted(..., key=..., reverse=True)`
is modelled by the stable Mathlib `List.insertionSort` with the corresponding
non-strict comparison relation.  JSON values are modelled by the inductive
type `Json`; file IO is out of scope (the structured-data value itself is
passed around).  Python exceptions (`KeyError` from `MandalaGrid.get`,
deserialization failures in `MandalaGrid.from_json`) are modelled with
`Except GridError`.
-/

/-- One cell of the 3×3 mandala grid (`GridPosition` dataclass,
`src/mandala_grid.py` lines 32-45).  Field order matches the dataclass. -/
structure GridPosition where
  index : Int
  label : String
  label_zh : String
  consciousness : String
  consciousness_zh : String
  function : String
  bias : ℚ
  description : String := ""
deriving DecidableEq

/-- The grid itself (`MandalaGrid` dataclass, lines 48-65). -/
structure MandalaGrid where
  positions : List GridPosition := []
  version : String := "2.0"
  name : String := "default"
  description : String := ""
deriving DecidableEq

/-- Errors surfaced by the model: `notFound` models the `KeyError` raised by
`MandalaGrid.get` (spec: NotFoundError), `deserialization` models all
failures of `MandalaGrid.from_json` (spec: DeserializationError). -/
inductive GridError where
  | notFound (index : Int)
  | deserialization
deriving DecidableEq

/-- Structured data (JSON) values. -/
inductive Json where
  | null
  | bool (b : Bool)
  | int (n : Int)
  | num (q : ℚ)
  | str (s : String)
  | arr (elems : List Json)
  | obj (fields : List (String × Json))

/-- Python dict subscript/`.get` on a structured value: `none` when the value
is not an object or lacks the key. -/
def jsonLookup (j : Json) (k : String) : Option Json :=
  match j with
  | Json.obj fields => fields.lookup k
  | _ => none

/-- Grid-level optional string field with default (`mg.get(k, d)`); the
embedding assumes the metadata fields, when present, are strings. -/
def jsonStrD (j : Json) (k : String) (d : String) : String :=
  match jsonLookup j k with
  | some (Json.str s) => s
  | _ => d

/-- `"\n".join`-style joining used throughout the Python source. -/
def joinSep (sep : String) : List String → String
  | [] => ""
  | [x] => x
  | x :: y :: xs => x ++ sep ++ joinSep sep (y :: xs)

/-- `t` occurs contiguously inside `s` (substring containment, on the
code-point sequences). -/
def containsSub (s t : String) : Prop := t.toList <:+: s.toList

instance (s t : String) : Decidable (containsSub s t) := by
  unfold containsSub
  infer_instance

/-- Exact subtraction on `ℚ` implemented on numerators/denominators, so that
it reduces inside the kernel (`Rat.sub` is irreducible); `ratSub_eq` below
proves it equal to `a - b`. -/
def ratSub (a b : ℚ) : ℚ := mkRat (a.num * b.den - b.num * a.den) (a.den * b.den)

/-- Exact absolute value on `ℚ` implemented on the numerator; `ratAbs_eq`
below proves it equal to `|q|`. -/
def ratAbs (q : ℚ) : ℚ := if q.num < 0 then mkRat (-q.num) q.den else q

/-- The comparison threshold `0.01` of `compare_grids` (line 207). -/
def hundredth : ℚ := mkRat 1 100

/-- Python `f"{x:.2f}"` on an exact rational: round to the nearest hundredth
(`⌊100q + 1/2⌋`, computed as a floor division on numerator/denominator) and
print with exactly two decimals.  (CPython rounds the underlying binary
float half-to-even; the two agree on all values that are exact multiples of
1/100, which covers all data in this repository.) -/
def fmt2 (q : ℚ) : String :=
  let n : Int := Int.fdiv (200 * q.num + (q.den : Int)) (2 * (q.den : Int))
  let sign := if n < 0 then "-" else ""
  let m := n.natAbs
  let frac := m % 100
  sign ++ toString (m / 100) ++ "." ++ (if frac < 10 then "0" else "") ++ toString frac

/-- Decimal digits of the fraction `r / d` (with `r < d`), most significant
first, with fuel; stops at the first exact zero remainder. -/
def fracDigits : Nat → Nat → Nat → List Char
  | 0, _, _ => []
  | fuel + 1, r, d =>
    if r = 0 then []
    else Char.ofNat (48 + 10 * r / d) :: fracDigits fuel (10 * r % d) d

/-- Python `repr`/`str` of a float bias, modelled on exact terminating
decimals: `1.0 ↦ "1.0"`, `0.9 ↦ "0.9"`, `0.95 ↦ "0.95"`. -/
def decRepr (q : ℚ) : String :=
  let m := q.num.natAbs
  let ds := fracDigits 30 (m % q.den) q.den
  (if q.num < 0 then "-" else "") ++ toString (m / q.den) ++ "." ++
    (if ds.isEmpty then "0" else String.mk ds)

/-- Python format spec `^w` centering: left pad `(w - len) / 2`, remainder on
the right; strings at least `w` long are returned unchanged. -/
def pyCenter (width : Nat) (s : String) : String :=
  let n := s.length
  if width ≤ n then s
  else
    let marg := width - n
    let left := marg / 2
    String.mk (List.replicate left ' ') ++ s ++ String.mk (List.replicate (marg - left) ' ')

/-- Python slicing `s[:k]` on code points. -/
def strTake (s : String) (k : Nat) : String := String.mk (s.toList.take k)

/-- Python `str.lower()` (the descriptions it is applied to are ASCII). -/
def strLower (s : String) : String := String.mk (s.toList.map Char.toLower)

/-- Descending-bias comparison used by `top_n`, `weighted_prompt` and the
CLI: `sorted(key=lambda p: p.bias, reverse=True)` keeps `p` before `q`
exactly when `q.bias ≤ p.bias` (non-strict, so ties are stable). -/
def biasGE (p q : GridPosition) : Prop := q.bias ≤ p.bias

/-- Ascending-bias comparison used for the bottom positions in
`mirror_analysis`. -/
def biasLE (p q : GridPosition) : Prop := p.bias ≤ q.bias

instance : DecidableRel biasGE := fun p q => inferInstanceAs (Decidable (q.bias ≤ p.bias))

instance : DecidableRel biasLE := fun p q => inferInstanceAs (Decidable (p.bias ≤ q.bias))

instance : IsTotal GridPosition biasGE := ⟨fun p q => le_total q.bias p.bias⟩

instance : IsTrans GridPosition biasGE := ⟨fun _ _ _ h h' => le_trans h' h⟩

instance : IsTotal GridPosition biasLE := ⟨fun p q => le_total p.bias q.bias⟩

instance : IsTrans GridPosition biasLE := ⟨fun _ _ _ h h' => le_trans h h'⟩

/-- The canonical nine positions of `MandalaGrid.default` (lines 72-91),
reproduced verbatim. -/
def defaultPositions : List GridPosition :=
  [ { index := 0, label := "Center Observer", label_zh := "中心觀測者",
      consciousness := "ālayavijñāna", consciousness_zh := "第八識（阿賴耶識）",
      function := "core_identity", bias := mkRat 1 1,
      description := "The silent witness. Observes all positions without attachment." },
    { index := 1, label := "Logic Gate", label_zh := "邏輯門",
      consciousness := "manovijñāna", consciousness_zh := "第六識（意識）",
      function := "logical_consistency", bias := mkRat 9 10,
      description := "Rejects any output that contradicts established logic chains." },
    { index := 2, label := "Evidence Filter", label_zh := "證據過濾",
      consciousness := "cakṣur-vijñāna", consciousness_zh := "眼識",
      function := "critical_evidence", bias := mkRat 8 10,
      description := "Demands verifiable evidence before accepting claims." },
    { index := 3, label := "Minimal Reasoner", label_zh := "極簡推理",
      consciousness := "ghrāṇa-vijñāna", consciousness_zh := "鼻識",
      function := "minimal_reasoning", bias := mkRat 7 10,
      description := "Strips arguments to their simplest valid form." },
    { index := 4, label := "Pragmatic Executor", label_zh := "實踐執行",
      consciousness := "kāya-vijñāna", consciousness_zh := "身識",
      function := "practical_execution", bias := mkRat 6 10,
      description := "Converts reasoning into actionable steps." },
    { index := 5, label := "Precision Output", label_zh := "精準產出",
      consciousness := "jihvā-vijñāna", consciousness_zh := "舌識",
      function := "precise_output", bias := mkRat 8 10,
      description := "Ensures output matches the required format and depth." },
    { index := 6, label := "Boundary Sentinel", label_zh := "認知邊界",
      consciousness := "śrotra-vijñāna", consciousness_zh := "耳識",
      function := "cognitive_boundary", bias := mkRat 9 10,
      description := "Flags when reasoning exceeds model capabilities or data." },
    { index := 7, label := "Deconstructor", label_zh := "解構者",
      consciousness := "manas", consciousness_zh := "第七識（末那識）",
      function := "deconstruction", bias := mkRat 95 100,
      description := "Actively seeks counter-examples and hidden assumptions." },
    { index := 8, label := "Legacy Keeper", label_zh := "傳承守護",
      consciousness := "beyond-eight", consciousness_zh := "傳承（超八識）",
      function := "core_record_relay", bias := mkRat 5 10,
      description := "Ensures continuity across sessions and generations." } ]

/-- `MandalaGrid.default()` factory (lines 69-94). -/
def MandalaGrid.default : MandalaGrid :=
  { positions := defaultPositions, version := "2.0", name := "quan-default",
    description := "The canonical Quan personality grid with Eight Consciousnesses mapping." }

deriving instance DecidableEq for Except

/-- `GridPosition.to_dict` (lines 44-45): `dataclasses.asdict`, fields in
declaration order. -/
def GridPosition.to_dict (p : GridPosition) : Json :=
  Json.obj
    [ ("index", Json.int p.index), ("label", Json.str p.label),
      ("label_zh", Json.str p.label_zh), ("consciousness", Json.str p.consciousness),
      ("consciousness_zh", Json.str p.consciousness_zh), ("function", Json.str p.function),
      ("bias", Json.num p.bias), ("description", Json.str p.description) ]

/-- `MandalaGrid.to_dict` (lines 101-109). -/
def MandalaGrid.to_dict (g : MandalaGrid) : Json :=
  Json.obj
    [ ("mandala_grid", Json.obj
        [ ("version", Json.str g.version), ("name", Json.str g.name),
          ("description", Json.str g.description),
          ("positions", Json.arr (g.positions.map GridPosition.to_dict)) ]) ]

/-- The keyword names accepted by the `GridPosition` constructor. -/
def positionKeys : List String :=
  ["index", "label", "label_zh", "consciousness", "consciousness_zh",
   "function", "bias", "description"]

/-- The seven required (core) fields of a position object. -/
def requiredKeys : List String :=
  ["index", "label", "label_zh", "consciousness", "consciousness_zh", "function", "bias"]

/-- A required integer field of a position object. -/
def reqInt (fs : List (String × Json)) (k : String) : Option Int :=
  match fs.lookup k with
  | some (Json.int i) => some i
  | _ => none

/-- A required string field of a position object. -/
def reqStr (fs : List (String × Json)) (k : String) : Option String :=
  match fs.lookup k with
  | some (Json.str s) => some s
  | _ => none

/-- A required numeric field of a position object. -/
def reqNum (fs : List (String × Json)) (k : String) : Option ℚ :=
  match fs.lookup k with
  | some (Json.num q) => some q
  | _ => none

/-- The optional `description` field: defaults to `""` when absent. -/
def optDescription (fs : List (String × Json)) : Option String :=
  match fs.lookup ("description") with
  | some (Json.str s) => some s
  | none => some ("")
  | some _ => none

/-- `GridPosition(**p)` on one deserialized position object: all seven core
fields are required (with the declared types), `description` defaults to
`""`, and an unknown key is a `TypeError` (hence `none`). -/
def parsePosition (j : Json) : Option GridPosition :=
  match j with
  | Json.obj fs =>
    if fs.all (fun kv => positionKeys.contains kv.1) then
      (reqInt fs ("index")).bind fun i =>
      (reqStr fs ("label")).bind fun l =>
      (reqStr fs ("label_zh")).bind fun lz =>
      (reqStr fs ("consciousness")).bind fun c =>
      (reqStr fs ("consciousness_zh")).bind fun cz =>
      (reqStr fs ("function")).bind fun fn =>
      (reqNum fs ("bias")).bind fun b =>
      (optDescription fs).map fun d => ⟨i, l, lz, c, cz, fn, b, d⟩
    else none
  | _ => none

/-- `[GridPosition(**p) for p in mg["positions"]]`: all elements must parse. -/
def parsePositions : List Json → Option (List GridPosition)
  | [] => some []
  | j :: js =>
    match parsePosition j, parsePositions js with
    | some p, some ps => some (p :: ps)
    | _, _ => none

/-- The body of `MandalaGrid.from_json` after the `mandala_grid` unwrapping
(lines 116-122), applied to the value `mg`. -/
def loadInner (mg : Json) : Except GridError MandalaGrid :=
  match jsonLookup mg ("positions") with
  | some (Json.arr ps) =>
    match parsePositions ps with
    | some positions =>
      Except.ok
        { positions := positions, version := jsonStrD mg ("version") ("2.0"),
          name := jsonStrD mg ("name") ("custom"),
          description := jsonStrD mg ("description") ("") }
    | none => Except.error GridError.deserialization
  | _ => Except.error GridError.deserialization

/-- `MandalaGrid.from_json` (lines 111-122) on an already-parsed structured
value: `mg = data.get("mandala_grid", data)` requires `data` to be an
object; every other failure (missing `positions`, non-sequence `positions`,
bad position object) is a deserialization error. -/
def MandalaGrid.from_json (data : Json) : Except GridError MandalaGrid :=
  match data with
  | Json.obj fields => loadInner ((fields.lookup ("mandala_grid")).getD (Json.obj fields))
  | _ => Except.error GridError.deserialization

/-- Linear scan behind `MandalaGrid.get` (lines 130-134): first position with
the matching index, else the `KeyError`. -/
def findPos : List GridPosition → Int → Except GridError GridPosition
  | [], i => Except.error (GridError.notFound i)
  | p :: ps, i => if p.index = i then Except.ok p else findPos ps i

/-- `MandalaGrid.get` (lines 130-134). -/
def MandalaGrid.get (g : MandalaGrid) (i : Int) : Except GridError GridPosition :=
  findPos g.positions i

/-- The non-center positions, in original order (line 138). -/
def MandalaGrid.nonCenter (g : MandalaGrid) : List GridPosition :=
  g.positions.filter (fun p => decide (p.index ≠ 0))

/-- `MandalaGrid.top_n` (lines 136-139): stable descending sort of the
non-center positions by bias, then the first `n`. -/
def MandalaGrid.top_n (g : MandalaGrid) (n : Nat) : List GridPosition :=
  (g.nonCenter.insertionSort biasGE).take n

/-- `MandalaGrid.personality_signature` (lines 141-145). -/
def MandalaGrid.personality_signature (g : MandalaGrid) : String :=
  let parts := (g.top_n 3).map (fun p => p.label ++ "(" ++ decRepr p.bias ++ ")")
  "[" ++ g.name ++ "] " ++ joinSep (" > ") parts

/-- The two lines `weighted_prompt` emits for one position (lines 163-164). -/
def promptPairLines (p : GridPosition) : List String :=
  [ "  [" ++ toString p.index ++ "] " ++ p.label ++ " (bias=" ++ decRepr p.bias ++ ") — "
      ++ p.consciousness,
    "      " ++ p.function ++ ": " ++ p.description ]

/-- `MandalaGrid.weighted_prompt` (lines 149-173). -/
def MandalaGrid.weighted_prompt (g : MandalaGrid) (task : String) : String :=
  let header :=
    [ "You are reasoning through a mandala grid — a weighted personality framework.",
      "Grid: " ++ g.name ++ " (v" ++ g.version ++ ")", "",
      "Each position represents a cognitive function with a bias weight.",
      "Higher bias = stronger influence on your reasoning.", "" ]
  let body := (g.positions.insertionSort biasGE).flatMap promptPairLines
  let footer :=
    [ "", "Task: " ++ task, "",
      "Process this task through all 9 positions, weighting your reasoning "
        ++ "by each position\x27s bias. Start from the center observer, then engage "
        ++ "positions from highest to lowest bias." ]
  joinSep ("\n") (header ++ body ++ footer)

/-- The dict comprehension `{p.index: p for p in self.positions}` of
`display` (line 179): on duplicate indices the later entry wins. -/
def dictGet (ps : List GridPosition) (i : Int) : Option GridPosition :=
  ps.reverse.find? (fun p => decide (p.index = i))

/-- One cell of `display` (lines 180-182): label truncated to 12 code
points, centered in width 14, then the bias to two decimals in parens. -/
def cellStr (p : GridPosition) : String :=
  pyCenter 14 (strTake p.label 12) ++ "(" ++ fmt2 p.bias ++ ")"

/-- The border line of `display` (line 184). -/
def displaySep : String :=
  "+" ++ String.mk (List.replicate 16 '-') ++ "+" ++ String.mk (List.replicate 16 '-')
    ++ "+" ++ String.mk (List.replicate 16 '-') ++ "+"

/-- `MandalaGrid.display` (lines 177-194); a missing index among
`1,2,3,6,0,5,7,8,4` surfaces as the Python `KeyError` of the cell lookup,
in evaluation order. -/
def MandalaGrid.display (g : MandalaGrid) : Except GridError String :=
  let cell := fun (i : Int) =>
    match dictGet g.positions i with
    | some p => Except.ok (cellStr p)
    | none => Except.error (GridError.notFound i)
  do
    let c1 ← cell 1
    let c2 ← cell 2
    let c3 ← cell 3
    let c6 ← cell 6
    let c0 ← cell 0
    let c5 ← cell 5
    let c7 ← cell 7
    let c8 ← cell 8
    let c4 ← cell 4
    pure (joinSep ("\n")
      [ displaySep, "|" ++ c1 ++ "|" ++ c2 ++ "|" ++ c3 ++ "|",
        displaySep, "|" ++ c6 ++ "|" ++ c0 ++ "|" ++ c5 ++ "|",
        displaySep, "|" ++ c7 ++ "|" ++ c8 ++ "|" ++ c4 ++ "|",
        displaySep ])

/-- One diff line of `compare_grids` (lines 208-210); `ratSub`/`ratAbs` are
the kernel-reducible subtraction and absolute value on `ℚ` (see `ratSub_eq`,
`ratAbs_eq`). -/
def diffLine (pa pb : GridPosition) : String :=
  let d := ratSub pa.bias pb.bias
  let arrow := if 0 < d then "↑" else "↓"
  "  Position " ++ toString pa.index ++ " (" ++ pa.label ++ "): " ++ fmt2 pa.bias
    ++ " → " ++ fmt2 pb.bias ++ " [" ++ arrow ++ fmt2 (ratAbs d) ++ "]"

/-- The loop of `compare_grids` (lines 204-210) over the positions of `a`:
look each index up in `b` (propagating the `KeyError`), emit a diff line
when the bias difference exceeds 0.01 in absolute value. -/
def diffLines (b : MandalaGrid) : List GridPosition → Except GridError (List String)
  | [] => Except.ok []
  | pa :: rest =>
    match b.get pa.index with
    | Except.error e => Except.error e
    | Except.ok pb =>
      match diffLines b rest with
      | Except.error e => Except.error e
      | Except.ok ls =>
        if hundredth < ratAbs (ratSub pa.bias pb.bias) then
          Except.ok (diffLine pa pb :: ls)
        else Except.ok ls

/-- The element a position of `a` contributes to the diff-line list, used to
state the characterization of `diffLines`. -/
def diffOpt (b : MandalaGrid) (pa : GridPosition) : Option String :=
  match b.get pa.index with
  | Except.ok pb =>
    if hundredth < ratAbs (ratSub pa.bias pb.bias) then some (diffLine pa pb) else none
  | Except.error _ => none

/-- `compare_grids` (lines 201-214). -/
def compare_grids (a b : MandalaGrid) : Except GridError String :=
  match diffLines b a.positions with
  | Except.error e => Except.error e
  | Except.ok ds =>
    Except.ok (joinSep ("\n")
      ([ "Comparing [" ++ a.name ++ "] vs [" ++ b.name ++ "]",
         String.mk (List.replicate 50 '=') ] ++ ds ++
       [ "", "  " ++ a.name ++ ": " ++ a.personality_signature,
         "  " ++ b.name ++ ": " ++ b.personality_signature ]))

/-- The strongest-pattern line of `mirror_analysis` (line 241). -/
def mirrorTopLine (p : GridPosition) : String :=
  "  ⬆ " ++ p.label ++ " (bias=" ++ decRepr p.bias ++ "): You naturally "
    ++ strLower p.description

/-- The deprioritized-pattern line of `mirror_analysis` (line 246). -/
def mirrorBottomLine (p : GridPosition) : String :=
  "  ⬇ " ++ p.label ++ " (bias=" ++ decRepr p.bias ++ "): You tend to under-invest in "
    ++ p.function

/-- `mirror_analysis` (lines 221-254): top three non-center positions (same
rule as `top_n`), bottom two non-center positions by ascending stable sort,
then the center position looked up via `get(0)` — whose `KeyError`
propagates. -/
def mirror_analysis (grid : MandalaGrid) : Except GridError String :=
  let top := grid.top_n 3
  let bottom := (grid.nonCenter.insertionSort biasLE).take 2
  match grid.get 0 with
  | Except.error e => Except.error e
  | Except.ok center =>
    Except.ok (joinSep ("\n")
      ([ "═══ Mirror Analysis ═══", "",
         "The AI-as-Mirror theory: your mandala_grid is not a design spec —",
         "it\x27s a self-portrait of how you think.", "",
         "Your strongest cognitive patterns:" ] ++
       top.map mirrorTopLine ++
       [ "", "Your deprioritized patterns:" ] ++
       bottom.map mirrorBottomLine ++
       [ "", "Your center: " ++ center.label ++ " — " ++ center.description, "",
         "Buddhism calls this self-awareness. You call it mandala_grid. Same thing." ]))

/-- The nine layout indices a canonical grid must provide (used to state
when `display` is total). -/
def nineIndices : List Int := [0, 1, 2, 3, 4, 5, 6, 7, 8]

/-- Test fixture: the scenario of `test_compare_different_grids` and spec
scenario 3 — position 7 of the default grid with its bias set to `0.5`. -/
def modifiedPos7 : GridPosition :=
  { index := 7, label := "Deconstructor", label_zh := "解構者",
    consciousness := "manas", consciousness_zh := "第七識（末那識）",
    function := "deconstruction", bias := mkRat 5 10,
    description := "Actively seeks counter-examples and hidden assumptions." }

/-- Test fixture: the default grid with position 7 dampened to bias `0.5`
and renamed `"modified"`. -/
def modifiedGrid : MandalaGrid :=
  { positions := defaultPositions.take 7 ++ [modifiedPos7] ++ defaultPositions.drop 8,
    version := "2.0", name := "modified",
    description := "The canonical Quan personality grid with Eight Consciousnesses mapping." }

/-- Test fixture: a well-formed grid holding a single position (index 3), so
most layout indices are absent. -/
def soloGrid : MandalaGrid :=
  { positions :=
      [ { index := 3, label := "Lone", label_zh := "獨", consciousness := "c",
          consciousness_zh := "識", function := "f", bias := mkRat 7 10,
          description := "d" } ],
    version := "2.0", name := "solo", description := "" }

/-- Structured-data fixture: one position object carrying an out-of-range
bias (`1.5`), exercising the absence of bias validation in `from_json`. -/
def outOfRangePosJson : Json :=
  Json.obj
    [ ("index", Json.int 1), ("label", Json.str ("Hot")), ("label_zh", Json.str ("熱")),
      ("consciousness", Json.str ("c")), ("consciousness_zh", Json.str ("識")),
      ("function", Json.str ("f")), ("bias", Json.num (mkRat 15 10)),
      ("description", Json.str ("over")) ]

/-- The position `outOfRangePosJson` deserializes to. -/
def outOfRangePos : GridPosition :=
  { index := 1, label := "Hot", label_zh := "熱", consciousness := "c",
    consciousness_zh := "識", function := "f", bias := mkRat 15 10,
    description := "over" }

/-- The grid `outOfRangePosJson` deserializes to (out-of-range bias kept). -/
def outOfRangeGrid : MandalaGrid :=
  { positions := [outOfRangePos], version := "2.0", name := "custom", description := "" }

/-- Structured-data fixture: a position object missing the required `label`
field. -/
def missingFieldPosJson : Json :=
  Json.obj
    [ ("index", Json.int 1), ("label_zh", Json.str ("熱")),
      ("consciousness", Json.str ("c")), ("consciousness_zh", Json.str ("識")),
      ("function", Json.str ("f")), ("bias", Json.num (mkRat 5 10)) ]

/-! ## Helper lemmas -/

theorem ratSub_eq (a b : ℚ) : ratSub a b = a - b := by
  have ha : ((a.den : ℚ)) ≠ 0 := by positivity
  have hb : ((b.den : ℚ)) ≠ 0 := by positivity
  rw [ratSub, Rat.mkRat_eq_div]
  conv_rhs => rw [← Rat.num_div_den a, ← Rat.num_div_den b]
  rw [div_sub_div _ _ ha hb]
  push_cast
  ring_nf

theorem ratAbs_eq (q : ℚ) : ratAbs q = |q| := by
  rw [ratAbs]
  by_cases h : q.num < 0
  · rw [if_pos h, ← Rat.neg_mkRat, Rat.mkRat_self, abs_of_neg]
    exact lt_of_not_le (fun hle => absurd (Rat.num_nonneg.mpr hle) (not_le.mpr h))
  · rw [if_neg h, abs_of_nonneg]
    exact Rat.num_nonneg.mp (not_lt.mp h)

theorem hundredth_eq : hundredth = 1 / 100 := by
  rw [hundredth, Rat.mkRat_eq_div]
  norm_num

theorem containsSub_of_toList {s t : String} (l₁ l₂ : List Char)
    (h : s.toList = l₁ ++ t.toList ++ l₂) : containsSub s t :=
  ⟨l₁, l₂, h.symm⟩

theorem containsSub_refl (s : String) : containsSub s s :=
  containsSub_of_toList [] [] (by simp)

theorem containsSub_appendL (s t : String) : containsSub (s ++ t) s :=
  containsSub_of_toList [] t.toList (by simp [String.toList, String.data_append])

theorem containsSub_appendR (s t : String) : containsSub (s ++ t) t :=
  containsSub_of_toList s.toList [] (by simp [String.toList, String.data_append])

theorem containsSub_trans {s u t : String} (h₁ : containsSub s u) (h₂ : containsSub u t) :
    containsSub s t :=
  List.IsInfix.trans h₂ h₁

theorem containsSub_joinSep (sep : String) (L : List String) (x : String) (hx : x ∈ L) :
    containsSub (joinSep sep L) x := by
  induction L with
  | nil => cases hx
  | cons a rest ih =>
    match rest, hx with
    | [], hx =>
      rw [List.mem_singleton.mp hx]
      exact containsSub_refl a
    | y :: ys, hx =>
      rw [joinSep]
      rcases List.mem_cons.mp hx with h | h
      · rw [h]
        exact containsSub_trans (containsSub_appendL (a ++ sep) _) (containsSub_appendL a sep)
      · exact containsSub_trans (containsSub_appendR _ _) (ih h)

theorem parsePosition_to_dict (p : GridPosition) : parsePosition p.to_dict = some p := rfl

theorem parsePositions_map_to_dict (ps : List GridPosition) :
    parsePositions (ps.map GridPosition.to_dict) = some ps := by
  induction ps with
  | nil => rfl
  | cons p ps ih => simp [parsePositions, parsePosition_to_dict, ih]

/-! ## Claims -/

/-- C1: deserializing the structured serialization of any grid `g` yields a
grid field-for-field equal to `g` — same version, name, description and the
same positions, field for field, in the same order (`from_json ∘ to_dict`
is the identity up to `Except.ok`; equality of `MandalaGrid` values is
componentwise structural equality). -/
theorem claim_C1_roundtrip (g : MandalaGrid) :
    MandalaGrid.from_json g.to_dict = Except.ok g := by
  simp [MandalaGrid.from_json, MandalaGrid.to_dict, loadInner, jsonLookup, jsonStrD,
    List.lookup, parsePositions_map_to_dict]

/-- C6: the default grid has exactly 9 positions with indices exactly
`0..8` (no duplicates), the center has bias `1.0`, `top_n 1` is the
position with index 7 and bias `0.95`, and `top_n 3` is
Deconstructor, Logic Gate, Boundary Sentinel in that order — the `0.9` tie
between indices 1 and 6 resolved in favor of index 1 by definition order. -/
theorem claim_C6_default_grid :
    MandalaGrid.default.positions.length = 9 ∧
    MandalaGrid.default.positions.map (fun p => p.index) = [0, 1, 2, 3, 4, 5, 6, 7, 8] ∧
    (MandalaGrid.default.positions.map (fun p => p.index)).Nodup ∧
    (MandalaGrid.default.get 0).map (fun p => p.bias) = Except.ok 1.0 ∧
    (MandalaGrid.default.top_n 1).map (fun p => (p.index, p.bias)) = [(7, 0.95)] ∧
    (MandalaGrid.default.top_n 3).map (fun p => p.label)
      = [("Deconstructor"), ("Logic Gate"), ("Boundary Sentinel")] ∧
    (MandalaGrid.default.top_n 3).map (fun p => p.index) = [7, 1, 6] := by
  have h1 : (1.0 : ℚ) = mkRat 1 1 := by
    rw [Rat.mkRat_eq_div]
    norm_num
  have h95 : (0.95 : ℚ) = mkRat 95 100 := by
    rw [Rat.mkRat_eq_div]
    norm_num
  refine ⟨by decide, by decide, by decide, ?_, ?_, by decide, by decide⟩
  · rw [h1]
    decide
  · rw [h95]
    decide

theorem findPos_ok {ps : List GridPosition} {i : Int} {p : GridPosition}
    (h : findPos ps i = Except.ok p) : p.index = i ∧ p ∈ ps := by
  induction ps with
  | nil => simp [findPos] at h
  | cons q qs ih =>
    rw [findPos] at h
    by_cases hq : q.index = i
    · rw [if_pos hq] at h
      injection h with h'
      subst h'
      exact ⟨hq, List.mem_cons_self q qs⟩
    · rw [if_neg hq] at h
      obtain ⟨h1, h2⟩ := ih h
      exact ⟨h1, List.mem_cons_of_mem q h2⟩

theorem findPos_error_eq {ps : List GridPosition} {i : Int} {e : GridError}
    (h : findPos ps i = Except.error e) : e = GridError.notFound i := by
  induction ps with
  | nil =>
    rw [findPos] at h
    injection h with h'
    exact h'.symm
  | cons q qs ih =>
    rw [findPos] at h
    by_cases hq : q.index = i
    · rw [if_pos hq] at h
      cases h
    · rw [if_neg hq] at h
      exact ih h

theorem findPos_error_iff {ps : List GridPosition} {i : Int} :
    findPos ps i = Except.error (GridError.notFound i) ↔ ∀ p ∈ ps, p.index ≠ i := by
  induction ps with
  | nil => simp [findPos]
  | cons q qs ih =>
    rw [findPos]
    by_cases hq : q.index = i
    · rw [if_pos hq]
      simp [hq]
    · rw [if_neg hq]
      simp [hq, ih]

theorem diffLines_missing {b : MandalaGrid} {ps : List GridPosition} {pa : GridPosition}
    (hmem : pa ∈ ps) (habs : ∀ pb ∈ b.positions, pb.index ≠ pa.index) :
    ∃ i, diffLines b ps = Except.error (GridError.notFound i) ∧
      ∀ pb ∈ b.positions, pb.index ≠ i := by
  induction ps with
  | nil => cases hmem
  | cons q qs ih =>
    cases hbq : b.get q.index with
    | error e =>
      have he : e = GridError.notFound q.index := findPos_error_eq hbq
      subst he
      refine ⟨q.index, by simp [diffLines, hbq], ?_⟩
      exact findPos_error_iff.mp hbq
    | ok pb =>
      rcases List.mem_cons.mp hmem with h | h
      · subst h
        obtain ⟨h1, h2⟩ := findPos_ok hbq
        exact absurd h1 (habs pb h2)
      · obtain ⟨i, hi, hi2⟩ := ih h
        exact ⟨i, by simp [diffLines, hbq, hi], hi2⟩

/-- C5: `get i` returns a position of the grid whose index equals `i`; it
fails with the NotFoundError for `i` exactly when no position of the grid
has index `i` (in particular `get 99` on the default grid fails); and
`compare_grids a b` propagates a NotFoundError whenever some index present
in `a` is absent from `b`. -/
theorem claim_C5_get :
    (∀ (g : MandalaGrid) (i : Int) (p : GridPosition),
        g.get i = Except.ok p → p.index = i ∧ p ∈ g.positions) ∧
    (∀ (g : MandalaGrid) (i : Int),
        g.get i = Except.error (GridError.notFound i) ↔ ∀ p ∈ g.positions, p.index ≠ i) ∧
    MandalaGrid.default.get 99 = Except.error (GridError.notFound 99) ∧
    (∀ (a b : MandalaGrid) (pa : GridPosition), pa ∈ a.positions →
        (∀ pb ∈ b.positions, pb.index ≠ pa.index) →
        ∃ i, compare_grids a b = Except.error (GridError.notFound i) ∧
          ∀ pb ∈ b.positions, pb.index ≠ i) := by
  refine ⟨fun g i p h => findPos_ok h, fun g i => findPos_error_iff, by decide, ?_⟩
  intro a b pa hmem habs
  obtain ⟨i, hi, hi2⟩ := diffLines_missing hmem habs
  exact ⟨i, by simp [compare_grids, hi], hi2⟩

/-- Witness for C5: the propagation conjunct applied to the default grid
compared against `soloGrid` (which lacks index 0). -/
theorem claim_C5_get_witness :
    ∃ i, compare_grids MandalaGrid.default soloGrid = Except.error (GridError.notFound i) ∧
      ∀ pb ∈ soloGrid.positions, pb.index ≠ i :=
  claim_C5_get.2.2.2 MandalaGrid.default soloGrid
    { index := 0, label := "Center Observer", label_zh := "中心觀測者",
      consciousness := "ālayavijñāna", consciousness_zh := "第八識（阿賴耶識）",
      function := "core_identity", bias := mkRat 1 1,
      description := "The silent witness. Observes all positions without attachment." }
    (by decide) (by decide)

theorem parsePosition_missing {fs : List (String × Json)} {k : String}
    (hk : k ∈ requiredKeys) (hmiss : fs.lookup k = none) :
    parsePosition (Json.obj fs) = none := by
  cases hall : fs.all (fun kv => positionKeys.contains kv.1) with
  | false =>
    simp only [parsePosition, hall]
    simp
  | true =>
    fin_cases hk
    · have h : reqInt fs ("index") = none := by simp [reqInt, hmiss]
      simp [parsePosition, hall, h]
    · have h : reqStr fs ("label") = none := by simp [reqStr, hmiss]
      simp [parsePosition, hall, h]
    · have h : reqStr fs ("label_zh") = none := by simp [reqStr, hmiss]
      simp [parsePosition, hall, h]
    · have h : reqStr fs ("consciousness") = none := by simp [reqStr, hmiss]
      simp [parsePosition, hall, h]
    · have h : reqStr fs ("consciousness_zh") = none := by simp [reqStr, hmiss]
      simp [parsePosition, hall, h]
    · have h : reqStr fs ("function") = none := by simp [reqStr, hmiss]
      simp [parsePosition, hall, h]
    · have h : reqNum fs ("bias") = none := by simp [reqNum, hmiss]
      simp [parsePosition, hall, h]

theorem parsePositions_none_iff (ps : List Json) :
    parsePositions ps = none ↔ ∃ j ∈ ps, parsePosition j = none := by
  induction ps with
  | nil => simp [parsePositions]
  | cons j js ih =>
    rw [parsePositions]
    cases hj : parsePosition j with
    | none => simp [hj]
    | some p =>
      cases hjs : parsePositions js with
      | none =>
        obtain ⟨x, hx1, hx2⟩ := ih.mp hjs
        simp only [hj, hjs]
        constructor
        · intro _
          exact ⟨x, List.mem_cons_of_mem _ hx1, hx2⟩
        · intro _
          trivial
      | some l =>
        have hnone : ¬ ∃ x ∈ js, parsePosition x = none := by
          intro hh
          rw [ih.mpr hh] at hjs
          cases hjs
        simp only [hj, hjs]
        constructor
        · intro hc
          cases hc
        · intro hc
          obtain ⟨x, hx1, hx2⟩ := hc
          rcases List.mem_cons.mp hx1 with h | h
          · rw [h] at hx2
            rw [hj] at hx2
            cases hx2
          · exact absurd ⟨x, h, hx2⟩ hnone

theorem claim_C4_from_json :
    (∀ mg : Json,
        MandalaGrid.from_json (Json.obj [(("mandala_grid" : String), mg)]) = loadInner mg) ∧
    (∀ fields : List (String × Json), (fields.lookup ("mandala_grid")).isNone →
        MandalaGrid.from_json (Json.obj fields) = loadInner (Json.obj fields)) ∧
    (∀ (mg : Json) (ps : List Json) (l : List GridPosition),
        jsonLookup mg ("positions") = some (Json.arr ps) → parsePositions ps = some l →
        loadInner mg = Except.ok
          { positions := l, version := jsonStrD mg ("version") ("2.0"),
            name := jsonStrD mg ("name") ("custom"),
            description := jsonStrD mg ("description") ("") }) ∧
    (∀ (ps : List Json) (l : List GridPosition), parsePositions ps = some l →
        loadInner (Json.obj [(("positions" : String), Json.arr ps)])
          = Except.ok { positions := l, version := "2.0", name := "custom", description := "" }) ∧
    MandalaGrid.from_json (Json.obj [(("positions" : String), Json.arr [outOfRangePosJson])])
      = Except.ok outOfRangeGrid ∧
    (1 : ℚ) < mkRat 15 10 ∧
    (∀ mg : Json, (jsonLookup mg ("positions")).isNone →
        loadInner mg = Except.error GridError.deserialization) ∧
    (∀ (mg : Json) (ps : List Json), jsonLookup mg ("positions") = some (Json.arr ps) →
        (loadInner mg = Except.error GridError.deserialization ↔ parsePositions ps = none)) ∧
    (∀ ps : List Json, parsePositions ps = none ↔ ∃ j ∈ ps, parsePosition j = none) ∧
    (∀ (fs : List (String × Json)) (k : String), k ∈ requiredKeys → fs.lookup k = none →
        parsePosition (Json.obj fs) = none) ∧
    parsePosition missingFieldPosJson = none ∧
    (∀ data : Json, (∀ fields, data ≠ Json.obj fields) →
        MandalaGrid.from_json data = Except.error GridError.deserialization) := by
  refine ⟨fun mg => rfl, ?_, ?_, ?_, by decide, ?_, ?_, ?_,
    parsePositions_none_iff, fun fs k hk hm => parsePosition_missing hk hm, by decide, ?_⟩
  · intro fields h
    simp [MandalaGrid.from_json, Option.isNone_iff_eq_none.mp h]
  · intro mg ps l h1 h2
    simp [loadInner, h1, h2]
  · intro ps l h
    simp [loadInner, jsonLookup, jsonStrD, List.lookup, h]
  · have : (1 : ℚ) = mkRat 1 1 := by
      rw [Rat.mkRat_eq_div]
      norm_num
    rw [this]
    decide
  · intro mg h
    simp [loadInner, Option.isNone_iff_eq_none.mp h]
  · intro mg ps h
    cases hp : parsePositions ps with
    | none => simp [loadInner, h, hp]
    | some l => simp [loadInner, h, hp]
  · intro data h
    cases data with
    | obj fields => exact absurd rfl (h fields)
    | null => rfl
    | bool b => rfl
    | int n => rfl
    | num q => rfl
    | str s => rfl
    | arr elems => rfl

theorem claim_C4_from_json_witness :
    MandalaGrid.from_json (Json.obj [(("positions" : String), Json.arr [])])
      = loadInner (Json.obj [(("positions" : String), Json.arr [])]) ∧
    loadInner Json.null = Except.error GridError.deserialization :=
  ⟨claim_C4_from_json.2.1 _ (by decide), claim_C4_from_json.2.2.2.2.2.2.1 Json.null (by decide)⟩

/-- C2: `top_n n` returns the `n` highest-bias positions among the non-center
positions (those with index ≠ 0), sorted descending by bias, ties kept in
original order (stability), and returns all non-center positions when `n`
exceeds their number.  Conjuncts: no returned position has index 0; the
result is descending in bias; its length is `min n` (number of non-center
positions); together with the dropped remainder it is a permutation of the
non-center positions and dominates that remainder in bias (so it is the `n`
highest); when `n` is large enough it is a permutation of all non-center
positions; and equal-bias pairs keep their original relative order. -/
theorem claim_C2_top_n (g : MandalaGrid) (n : Nat) :
    (∀ p ∈ g.top_n n, p.index ≠ 0) ∧
    (g.top_n n).Pairwise (fun p q => q.bias ≤ p.bias) ∧
    (g.top_n n).length = min n g.nonCenter.length ∧
    (g.top_n n ++ (g.nonCenter.insertionSort biasGE).drop n).Perm g.nonCenter ∧
    (∀ p ∈ g.top_n n, ∀ q ∈ (g.nonCenter.insertionSort biasGE).drop n, q.bias ≤ p.bias) ∧
    (g.nonCenter.length ≤ n → (g.top_n n).Perm g.nonCenter) ∧
    (∀ p q : GridPosition, p.bias = q.bias → List.Sublist [p, q] g.nonCenter →
        List.Sublist [p, q] (g.nonCenter.insertionSort biasGE)) := by
  have hsorted : (g.nonCenter.insertionSort biasGE).Pairwise biasGE :=
    List.sorted_insertionSort biasGE g.nonCenter
  have hperm : (g.nonCenter.insertionSort biasGE).Perm g.nonCenter :=
    List.perm_insertionSort biasGE g.nonCenter
  refine ⟨?_, ?_, ?_, ?_, ?_, ?_, ?_⟩
  · intro p hp
    simp only [MandalaGrid.top_n] at hp
    have h1 : p ∈ g.nonCenter.insertionSort biasGE := (List.take_sublist n _).subset hp
    have h2 : p ∈ g.nonCenter := (List.mem_insertionSort _).mp h1
    simp only [MandalaGrid.nonCenter] at h2
    exact of_decide_eq_true (List.mem_filter.mp h2).2
  · simp only [MandalaGrid.top_n]
    exact (List.Pairwise.sublist (List.take_sublist n _) hsorted).imp (fun h => h)
  · simp only [MandalaGrid.top_n]
    rw [List.length_take, List.length_insertionSort]
  · simp only [MandalaGrid.top_n]
    rw [List.take_append_drop]
    exact hperm
  · intro p hp q hq
    simp only [MandalaGrid.top_n] at hp
    have h := List.pairwise_append.mp
      (by rw [List.take_append_drop]; exact hsorted :
        ((g.nonCenter.insertionSort biasGE).take n
          ++ (g.nonCenter.insertionSort biasGE).drop n).Pairwise biasGE)
    exact h.2.2 p hp q hq
  · intro h
    simp only [MandalaGrid.top_n]
    rw [List.take_of_length_le (by rw [List.length_insertionSort]; exact h)]
    exact hperm
  · intro p q hpq hsub
    exact List.pair_sublist_insertionSort (le_of_eq hpq.symm) hsub

/-- Witness for C2: with `n = 8` at the default grid, all eight non-center
positions are returned (as a permutation of the non-center list). -/
theorem claim_C2_top_n_witness :
    (MandalaGrid.default.top_n 8).Perm MandalaGrid.default.nonCenter :=
  (claim_C2_top_n MandalaGrid.default 8).2.2.2.2.2.1 (by decide)

theorem diffLines_filterMap {b : MandalaGrid} {ps : List GridPosition}
    (h : ∀ pa ∈ ps, ∃ pb, b.get pa.index = Except.ok pb) :
    diffLines b ps = Except.ok (ps.filterMap (diffOpt b)) := by
  induction ps with
  | nil => rfl
  | cons q qs ih =>
    obtain ⟨pb, hpb⟩ := h q (List.mem_cons_self q qs)
    have ih' := ih (fun pa hpa => h pa (List.mem_cons_of_mem q hpa))
    by_cases hc : hundredth < ratAbs (ratSub q.bias pb.bias)
    · simp [diffLines, hpb, ih', List.filterMap_cons, diffOpt, hc]
    · simp [diffLines, hpb, ih', List.filterMap_cons, diffOpt, hc]

theorem findPos_self {ps : List GridPosition}
    (hnd : (ps.map (fun p => p.index)).Nodup) {pa : GridPosition} (h : pa ∈ ps) :
    findPos ps pa.index = Except.ok pa := by
  induction ps with
  | nil => cases h
  | cons q qs ih =>
    rw [List.map_cons, List.nodup_cons] at hnd
    rcases List.mem_cons.mp h with h' | h'
    · subst h'
      rw [findPos, if_pos rfl]
    · rw [findPos, if_neg, ih hnd.2 h']
      intro hq
      exact hnd.1 (hq ▸ List.mem_map_of_mem (fun p => p.index) h')

theorem findPos_append_no {pre rest : List GridPosition} {i : Int}
    (h : ∀ p ∈ pre, p.index ≠ i) : findPos (pre ++ rest) i = findPos rest i := by
  induction pre with
  | nil => rfl
  | cons q qs ih =>
    rw [List.cons_append, findPos, if_neg (h q (List.mem_cons_self q qs))]
    exact ih (fun p hp => h p (List.mem_cons_of_mem q hp))

theorem diffOpt_self {b : MandalaGrid} {pa : GridPosition}
    (h : b.get pa.index = Except.ok pa) : diffOpt b pa = none := by
  have hz : ratAbs (ratSub pa.bias pa.bias) = 0 := by
    rw [ratSub_eq, ratAbs_eq, sub_self, abs_zero]
  have hc : ¬ hundredth < ratAbs (ratSub pa.bias pa.bias) := by
    rw [hz, hundredth_eq]
    norm_num
  simp [diffOpt, h, hc]

/-- C3: a diff line is emitted for a position of `a` exactly when the
absolute bias difference against the same index in `b` exceeds `0.01`, with
the up marker when the bias in `a` is greater and the down marker when the
bias in `b` is greater; comparing a grid with itself emits no diff line; and two
otherwise-identical grids differing in the bias of one position by more than
`0.01` emit exactly that one diff line. -/
theorem claim_C3_compare :
    (∀ (a b : MandalaGrid), (∀ pa ∈ a.positions, ∃ pb, b.get pa.index = Except.ok pb) →
        diffLines b a.positions = Except.ok (a.positions.filterMap (diffOpt b))) ∧
    (∀ (b : MandalaGrid) (pa pb : GridPosition), b.get pa.index = Except.ok pb →
        diffOpt b pa =
          if 1 / 100 < |pa.bias - pb.bias| then some (diffLine pa pb) else none) ∧
    (∀ pa pb : GridPosition, pb.bias < pa.bias → containsSub (diffLine pa pb) ("↑")) ∧
    (∀ pa pb : GridPosition, pa.bias < pb.bias → containsSub (diffLine pa pb) ("↓")) ∧
    (∀ g : MandalaGrid, (g.positions.map (fun p => p.index)).Nodup →
        diffLines g g.positions = Except.ok []) ∧
    (∀ (a b : MandalaGrid) (pre suf : List GridPosition) (p q : GridPosition),
        a.positions = pre ++ p :: suf → b.positions = pre ++ q :: suf →
        q.index = p.index → 1 / 100 < |p.bias - q.bias| →
        (a.positions.map (fun r => r.index)).Nodup →
        diffLines b a.positions = Except.ok [diffLine p q]) := by
  have harrow : ∀ pa pb : GridPosition,
      diffLine pa pb =
        (("  Position " ++ toString pa.index ++ " (" ++ pa.label ++ "): " ++ fmt2 pa.bias
          ++ " → " ++ fmt2 pb.bias ++ " [")
          ++ (if 0 < ratSub pa.bias pb.bias then "↑" else "↓"))
          ++ (fmt2 (ratAbs (ratSub pa.bias pb.bias)) ++ "]") := by
    intro pa pb
    rw [diffLine]
    simp [String.append_assoc]
  refine ⟨fun a b h => diffLines_filterMap h, ?_, ?_, ?_, ?_, ?_⟩
  · intro b pa pb h
    simp only [diffOpt, h, ratSub_eq, ratAbs_eq, hundredth_eq]
  · intro pa pb h
    have h0 : 0 < ratSub pa.bias pb.bias := by
      rw [ratSub_eq]
      exact sub_pos.mpr h
    rw [harrow, if_pos h0]
    exact containsSub_trans (containsSub_appendL _ _) (containsSub_appendR _ _)
  · intro pa pb h
    have h0 : ¬ 0 < ratSub pa.bias pb.bias := by
      rw [ratSub_eq]
      simp only [sub_pos, not_lt]
      exact le_of_lt h
    rw [harrow, if_neg h0]
    exact containsSub_trans (containsSub_appendL _ _) (containsSub_appendR _ _)
  · intro g hnd
    rw [diffLines_filterMap (fun pa hpa => ⟨pa, findPos_self hnd hpa⟩)]
    have : ∀ pa ∈ g.positions, diffOpt g pa = none :=
      fun pa hpa => diffOpt_self (findPos_self hnd hpa)
    simp [List.filterMap_eq_nil_iff]
    intro pa hpa
    exact this pa hpa
  · intro a b pre suf p q ha hb hqp hdiff hnd
    have hbnd : (b.positions.map (fun r => r.index)).Nodup := by
      rw [hb, List.map_append, List.map_cons, hqp]
      rw [ha, List.map_append, List.map_cons] at hnd
      exact hnd
    have hget_mem : ∀ pa ∈ b.positions, b.get pa.index = Except.ok pa :=
      fun pa hpa => findPos_self hbnd hpa
    have hpre_ne : ∀ r ∈ pre, r.index ≠ p.index := by
      rw [ha, List.map_append, List.map_cons] at hnd
      intro r hr hri
      have h1 : r.index ∈ pre.map (fun r => r.index) := List.mem_map_of_mem _ hr
      have h2 := (List.nodup_append.mp hnd).2.2
      have h3 : r.index ∈ p.index :: suf.map (fun r => r.index) := by
        rw [hri]
        exact List.mem_cons_self _ _
      exact h2 h1 h3
    have hgetp : b.get p.index = Except.ok q := by
      show findPos b.positions p.index = Except.ok q
      rw [hb, findPos_append_no hpre_ne, findPos, if_pos hqp]
    have hall : ∀ pa ∈ a.positions, ∃ pb, b.get pa.index = Except.ok pb := by
      intro pa hpa
      rw [ha] at hpa
      rcases List.mem_append.mp hpa with h' | h'
      · exact ⟨pa, hget_mem pa (by rw [hb]; exact List.mem_append_left _ h')⟩
      · rcases List.mem_cons.mp h' with h'' | h''
        · subst h''
          exact ⟨q, hgetp⟩
        · exact ⟨pa, hget_mem pa
            (by rw [hb]; exact List.mem_append_right _ (List.mem_cons_of_mem q h''))⟩
    rw [diffLines_filterMap hall, ha, List.filterMap_append, List.filterMap_cons]
    have hnone_pre : ∀ r ∈ pre, diffOpt b r = none := by
      intro r hr
      exact diffOpt_self (hget_mem r (by rw [hb]; exact List.mem_append_left _ hr))
    have hnone_suf : ∀ r ∈ suf, diffOpt b r = none := by
      intro r hr
      exact diffOpt_self (hget_mem r
        (by rw [hb]; exact List.mem_append_right _ (List.mem_cons_of_mem q hr)))
    have hsome : diffOpt b p = some (diffLine p q) := by
      have hc : hundredth < ratAbs (ratSub p.bias q.bias) := by
        rw [ratSub_eq, ratAbs_eq, hundredth_eq]
        exact hdiff
      simp [diffOpt, hgetp, hc]
    rw [List.filterMap_eq_nil_iff.mpr hnone_pre, List.filterMap_eq_nil_iff.mpr hnone_suf, hsome]
    rfl

/-- Witness for C3: the default grid compared with itself has no diff line,
and `modifiedGrid` (position 7 dampened from `0.95` to `0.5`) against the
default grid produces exactly the one diff line for position 7. -/
theorem claim_C3_compare_witness :
    diffLines MandalaGrid.default MandalaGrid.default.positions = Except.ok [] ∧
    diffLines modifiedGrid MandalaGrid.default.positions
      = Except.ok [diffLine (defaultPositions.get ⟨7, by decide⟩) modifiedPos7] := by
  constructor
  · exact claim_C3_compare.2.2.2.2.1 MandalaGrid.default (by decide)
  · refine claim_C3_compare.2.2.2.2.2 MandalaGrid.default modifiedGrid
      (defaultPositions.take 7) (defaultPositions.drop 8)
      (defaultPositions.get ⟨7, by decide⟩) modifiedPos7 (by decide) (by decide)
      (by decide) ?_ (by decide)
    have : |(defaultPositions.get ⟨7, by decide⟩).bias - modifiedPos7.bias|
        = ratAbs (ratSub (defaultPositions.get ⟨7, by decide⟩).bias modifiedPos7.bias) := by
      rw [ratSub_eq, ratAbs_eq]
    rw [this]
    have h100 : (1 : ℚ) / 100 = hundredth := hundredth_eq.symm
    rw [h100]
    decide

theorem containsSub_eq (a t b : String) : containsSub ((a ++ t) ++ b) t :=
  containsSub_trans (containsSub_appendL _ b) (containsSub_appendR a t)

/-- C7: `weighted_prompt task` contains the literal task string, the grid
name and version, and the label and bias of every position; its body holds
one line-pair per position (all of them, center included), listed in
descending bias order with stable ties. -/
theorem claim_C7_weighted_prompt (g : MandalaGrid) (task : String) :
    containsSub (g.weighted_prompt task) task ∧
    containsSub (g.weighted_prompt task) g.name ∧
    containsSub (g.weighted_prompt task) g.version ∧
    (∀ p ∈ g.positions, containsSub (g.weighted_prompt task) p.label ∧
        containsSub (g.weighted_prompt task) (decRepr p.bias)) ∧
    (g.positions.insertionSort biasGE).Perm g.positions ∧
    (g.positions.insertionSort biasGE).Pairwise (fun p q => q.bias ≤ p.bias) ∧
    (∀ p q : GridPosition, p.bias = q.bias → List.Sublist [p, q] g.positions →
        List.Sublist [p, q] (g.positions.insertionSort biasGE)) ∧
    g.weighted_prompt task = joinSep ("\n")
      ([ "You are reasoning through a mandala grid — a weighted personality framework.",
         "Grid: " ++ g.name ++ " (v" ++ g.version ++ ")", "",
         "Each position represents a cognitive function with a bias weight.",
         "Higher bias = stronger influence on your reasoning.", "" ]
       ++ (g.positions.insertionSort biasGE).flatMap promptPairLines
       ++ [ "", "Task: " ++ task, "",
         "Process this task through all 9 positions, weighting your reasoning "
           ++ "by each position\x27s bias. Start from the center observer, then engage "
           ++ "positions from highest to lowest bias." ]) := by
  have hgridline : ∀ x : String,
      x ∈ ([ "You are reasoning through a mandala grid — a weighted personality framework.",
         "Grid: " ++ g.name ++ " (v" ++ g.version ++ ")", "",
         "Each position represents a cognitive function with a bias weight.",
         "Higher bias = stronger influence on your reasoning.", "" ]
       ++ (g.positions.insertionSort biasGE).flatMap promptPairLines
       ++ [ "", "Task: " ++ task, "",
         "Process this task through all 9 positions, weighting your reasoning "
           ++ "by each position\x27s bias. Start from the center observer, then engage "
           ++ "positions from highest to lowest bias." ]) →
      containsSub (g.weighted_prompt task) x := by
    intro x hx
    exact containsSub_joinSep _ _ x hx
  refine ⟨?_, ?_, ?_, ?_, List.perm_insertionSort biasGE g.positions,
    (List.sorted_insertionSort biasGE g.positions).imp (fun h => h),
    fun p q hpq hsub => List.pair_sublist_insertionSort (le_of_eq hpq.symm) hsub, rfl⟩
  · refine containsSub_trans (hgridline ("Task: " ++ task) (by simp)) ?_
    exact containsSub_appendR _ _
  · refine containsSub_trans (hgridline ("Grid: " ++ g.name ++ " (v" ++ g.version ++ ")")
      (by simp)) ?_
    have : "Grid: " ++ g.name ++ " (v" ++ g.version ++ ")"
        = ("Grid: " ++ g.name) ++ (" (v" ++ g.version ++ ")") := by
      simp [String.append_assoc]
    rw [this]
    exact containsSub_trans (containsSub_appendL _ _) (containsSub_appendR _ _)
  · refine containsSub_trans (hgridline ("Grid: " ++ g.name ++ " (v" ++ g.version ++ ")")
      (by simp)) ?_
    have : "Grid: " ++ g.name ++ " (v" ++ g.version ++ ")"
        = (("Grid: " ++ g.name ++ " (v") ++ g.version) ++ ")" := by
      simp [String.append_assoc]
    rw [this]
    exact containsSub_eq _ _ _
  · intro p hp
    have hpsorted : p ∈ g.positions.insertionSort biasGE := (List.mem_insertionSort _).mpr hp
    have hline : ("  [" ++ toString p.index ++ "] " ++ p.label ++ " (bias=" ++ decRepr p.bias
        ++ ") — " ++ p.consciousness)
        ∈ (g.positions.insertionSort biasGE).flatMap promptPairLines := by
      apply List.mem_flatMap.mpr
      exact ⟨p, hpsorted, by simp [promptPairLines]⟩
    have hwhole := hgridline _
      (List.mem_append.mpr (Or.inl (List.mem_append.mpr (Or.inr hline))))
    constructor
    · refine containsSub_trans hwhole ?_
      have : "  [" ++ toString p.index ++ "] " ++ p.label ++ " (bias=" ++ decRepr p.bias
          ++ ") — " ++ p.consciousness
          = (("  [" ++ toString p.index ++ "] ") ++ p.label)
            ++ (" (bias=" ++ decRepr p.bias ++ ") — " ++ p.consciousness) := by
        simp [String.append_assoc]
      rw [this]
      exact containsSub_eq _ _ _
    · refine containsSub_trans hwhole ?_
      have : "  [" ++ toString p.index ++ "] " ++ p.label ++ " (bias=" ++ decRepr p.bias
          ++ ") — " ++ p.consciousness
          = (("  [" ++ toString p.index ++ "] " ++ p.label ++ " (bias=") ++ decRepr p.bias)
            ++ (") — " ++ p.consciousness) := by
        simp [String.append_assoc]
      rw [this]
      exact containsSub_eq _ _ _

/-- Witness for C7: the label of position 7 occurs in the weighted prompt of
the default grid for a concrete task. -/
theorem claim_C7_weighted_prompt_witness :
    containsSub (MandalaGrid.default.weighted_prompt ("demo")) ("Deconstructor") :=
  ((claim_C7_weighted_prompt MandalaGrid.default ("demo")).2.2.2.1
    (defaultPositions.get ⟨7, by decide⟩) (by decide)).1

/-- C8: on a grid providing all nine layout indices, `display` is exactly 7
lines — border, row, border, row, border, row, border — with
row1 = [1,2,3], row2 = [6,0,5], row3 = [7,8,4], each cell being the label
truncated to 12 code points, centered in a 14-character field, followed by
the bias to two decimals in parentheses. -/
theorem claim_C8_display (g : MandalaGrid)
    (p0 p1 p2 p3 p4 p5 p6 p7 p8 : GridPosition)
    (h0 : dictGet g.positions 0 = some p0) (h1 : dictGet g.positions 1 = some p1)
    (h2 : dictGet g.positions 2 = some p2) (h3 : dictGet g.positions 3 = some p3)
    (h4 : dictGet g.positions 4 = some p4) (h5 : dictGet g.positions 5 = some p5)
    (h6 : dictGet g.positions 6 = some p6) (h7 : dictGet g.positions 7 = some p7)
    (h8 : dictGet g.positions 8 = some p8) :
    g.display = Except.ok (joinSep ("\n")
      [ displaySep,
        "|" ++ cellStr p1 ++ "|" ++ cellStr p2 ++ "|" ++ cellStr p3 ++ "|",
        displaySep,
        "|" ++ cellStr p6 ++ "|" ++ cellStr p0 ++ "|" ++ cellStr p5 ++ "|",
        displaySep,
        "|" ++ cellStr p7 ++ "|" ++ cellStr p8 ++ "|" ++ cellStr p4 ++ "|",
        displaySep ]) ∧
    (∀ p : GridPosition,
        cellStr p = pyCenter 14 (strTake p.label 12) ++ "(" ++ fmt2 p.bias ++ ")") ∧
    ([ displaySep,
        "|" ++ cellStr p1 ++ "|" ++ cellStr p2 ++ "|" ++ cellStr p3 ++ "|",
        displaySep,
        "|" ++ cellStr p6 ++ "|" ++ cellStr p0 ++ "|" ++ cellStr p5 ++ "|",
        displaySep,
        "|" ++ cellStr p7 ++ "|" ++ cellStr p8 ++ "|" ++ cellStr p4 ++ "|",
        displaySep ] : List String).length = 7 := by
  refine ⟨?_, fun p => rfl, rfl⟩
  simp [MandalaGrid.display, h0, h1, h2, h3, h4, h5, h6, h7, h8, Bind.bind, Except.bind,
    Pure.pure, Except.pure]

/-- Witness for C8: the default grid provides all nine indices, so its
display succeeds. -/
theorem claim_C8_display_witness : (MandalaGrid.default.display).isOk = true := by
  rw [(claim_C8_display MandalaGrid.default
    (defaultPositions.get ⟨0, by decide⟩) (defaultPositions.get ⟨1, by decide⟩)
    (defaultPositions.get ⟨2, by decide⟩) (defaultPositions.get ⟨3, by decide⟩)
    (defaultPositions.get ⟨4, by decide⟩) (defaultPositions.get ⟨5, by decide⟩)
    (defaultPositions.get ⟨6, by decide⟩) (defaultPositions.get ⟨7, by decide⟩)
    (defaultPositions.get ⟨8, by decide⟩)
    (by decide) (by decide) (by decide) (by decide) (by decide) (by decide) (by decide)
    (by decide) (by decide)).1]
  rfl

/-- C9: `mirror_analysis` is a pure function of the field values of the grid;
for
a grid with a center, its output lists the top 3 non-center positions (the
`top_n` rule) as strongest patterns, the bottom 2 non-center positions in
ascending bias order (lowest first, stable) as deprioritized patterns, then
the label and description of the center and a fixed closing line; the bottom-2
list is ascending, a prefix of a permutation of the non-center positions,
and dominated by the remainder; and on the default grid the output contains
"Mirror" and "Center Observer". -/
theorem claim_C9_mirror :
    (∀ (g : MandalaGrid) (center : GridPosition), g.get 0 = Except.ok center →
        mirror_analysis g = Except.ok (joinSep ("\n")
          ([ "═══ Mirror Analysis ═══", "",
             "The AI-as-Mirror theory: your mandala_grid is not a design spec —",
             "it\x27s a self-portrait of how you think.", "",
             "Your strongest cognitive patterns:" ] ++
           (g.top_n 3).map mirrorTopLine ++
           [ "", "Your deprioritized patterns:" ] ++
           ((g.nonCenter.insertionSort biasLE).take 2).map mirrorBottomLine ++
           [ "", "Your center: " ++ center.label ++ " — " ++ center.description, "",
             "Buddhism calls this self-awareness. You call it mandala_grid. Same thing." ]))) ∧
    (∀ g : MandalaGrid,
        ((g.nonCenter.insertionSort biasLE).take 2).Pairwise (fun p q => p.bias ≤ q.bias)) ∧
    (∀ g : MandalaGrid, (g.nonCenter.insertionSort biasLE).Perm g.nonCenter) ∧
    (∀ (g : MandalaGrid) (p : GridPosition), p ∈ (g.nonCenter.insertionSort biasLE).take 2 →
        ∀ q ∈ (g.nonCenter.insertionSort biasLE).drop 2, p.bias ≤ q.bias) ∧
    (∃ s, mirror_analysis MandalaGrid.default = Except.ok s ∧
        containsSub s ("Mirror") ∧ containsSub s ("Center Observer")) := by
  have hmain : ∀ (g : MandalaGrid) (center : GridPosition), g.get 0 = Except.ok center →
      mirror_analysis g = Except.ok (joinSep ("\n")
        ([ "═══ Mirror Analysis ═══", "",
           "The AI-as-Mirror theory: your mandala_grid is not a design spec —",
           "it\x27s a self-portrait of how you think.", "",
           "Your strongest cognitive patterns:" ] ++
         (g.top_n 3).map mirrorTopLine ++
         [ "", "Your deprioritized patterns:" ] ++
         ((g.nonCenter.insertionSort biasLE).take 2).map mirrorBottomLine ++
         [ "", "Your center: " ++ center.label ++ " — " ++ center.description, "",
           "Buddhism calls this self-awareness. You call it mandala_grid. Same thing." ])) := by
    intro g center h
    simp [mirror_analysis, h]
  refine ⟨hmain, ?_, fun g => List.perm_insertionSort biasLE g.nonCenter, ?_, ?_⟩
  · intro g
    exact (List.Pairwise.sublist (List.take_sublist 2 _)
      (List.sorted_insertionSort biasLE g.nonCenter)).imp (fun h => h)
  · intro g p hp q hq
    have h := List.pairwise_append.mp
      (by rw [List.take_append_drop]; exact List.sorted_insertionSort biasLE g.nonCenter :
        ((g.nonCenter.insertionSort biasLE).take 2
          ++ (g.nonCenter.insertionSort biasLE).drop 2).Pairwise biasLE)
    exact h.2.2 p hp q hq
  · have hcenter : MandalaGrid.default.get 0
        = Except.ok (defaultPositions.get ⟨0, by decide⟩) := by decide
    have heq := hmain MandalaGrid.default (defaultPositions.get ⟨0, by decide⟩) hcenter
    refine ⟨_, heq, ?_, ?_⟩
    · refine containsSub_trans (containsSub_joinSep _ _ ("═══ Mirror Analysis ═══") ?_) ?_
      · exact List.mem_append_left _ (List.mem_append_left _ (List.mem_append_left _
          (List.mem_append_left _ (List.mem_cons_self _ _))))
      · decide
    · refine containsSub_trans (containsSub_joinSep _ _
        ("Your center: " ++ (defaultPositions.get ⟨0, by decide⟩).label ++ " — "
          ++ (defaultPositions.get ⟨0, by decide⟩).description) ?_) ?_
      · exact List.mem_append_right _
          (List.mem_cons_of_mem _ (List.mem_cons_self _ _))
      · have hshape : "Your center: " ++ (defaultPositions.get ⟨0, by decide⟩).label ++ " — "
            ++ (defaultPositions.get ⟨0, by decide⟩).description
            = (("Your center: " ++ ("Center Observer"))
              ++ (" — " ++ (defaultPositions.get ⟨0, by decide⟩).description)) := by
          decide
        rw [hshape]
        exact containsSub_trans (containsSub_appendL _ _) (containsSub_appendR _ _)

/-- Witness for C9: the default grid has a center, so its mirror analysis
succeeds. -/
theorem claim_C9_mirror_witness : (mirror_analysis MandalaGrid.default).isOk = true := by
  rw [claim_C9_mirror.1 MandalaGrid.default (defaultPositions.get ⟨0, by decide⟩) (by decide)]
  rfl

theorem dictGet_isSome_iff {ps : List GridPosition} {i : Int} :
    (dictGet ps i).isSome = true ↔ ∃ p ∈ ps, p.index = i := by
  simp [dictGet, List.find?_isSome, List.mem_reverse]

theorem dictGet_none {ps : List GridPosition} {i : Int} (h : dictGet ps i = none) :
    ∀ p ∈ ps, p.index ≠ i := by
  intro p hp hpi
  have : (dictGet ps i).isSome = true := dictGet_isSome_iff.mpr ⟨p, hp, hpi⟩
  rw [h] at this
  cases this

theorem dictGet_mem_index {ps : List GridPosition} {i : Int} {p : GridPosition}
    (h : dictGet ps i = some p) : ∃ q ∈ ps, q.index = i :=
  dictGet_isSome_iff.mp (by rw [h]; rfl)

theorem display_total_or_error (g : MandalaGrid) :
    ((g.display).isOk = true ∧ ∀ i ∈ nineIndices, ∃ p ∈ g.positions, p.index = i) ∨
    (∃ i ∈ nineIndices, g.display = Except.error (GridError.notFound i) ∧
        ∀ p ∈ g.positions, p.index ≠ i) := by
  cases hd1 : dictGet g.positions 1 with
  | none =>
    exact Or.inr ⟨1, by decide,
      by simp [MandalaGrid.display, hd1, Bind.bind, Except.bind, Functor.map, Except.map],
      dictGet_none hd1⟩
  | some p1 =>
  cases hd2 : dictGet g.positions 2 with
  | none =>
    exact Or.inr ⟨2, by decide,
      by simp [MandalaGrid.display, hd1, hd2, Bind.bind, Except.bind, Functor.map, Except.map], dictGet_none hd2⟩
  | some p2 =>
  cases hd3 : dictGet g.positions 3 with
  | none =>
    exact Or.inr ⟨3, by decide,
      by simp [MandalaGrid.display, hd1, hd2, hd3, Bind.bind, Except.bind, Functor.map,
        Except.map], dictGet_none hd3⟩
  | some p3 =>
  cases hd6 : dictGet g.positions 6 with
  | none =>
    exact Or.inr ⟨6, by decide,
      by simp [MandalaGrid.display, hd1, hd2, hd3, hd6, Bind.bind, Except.bind, Functor.map,
        Except.map], dictGet_none hd6⟩
  | some p6 =>
  cases hd0 : dictGet g.positions 0 with
  | none =>
    exact Or.inr ⟨0, by decide,
      by simp [MandalaGrid.display, hd1, hd2, hd3, hd6, hd0, Bind.bind, Except.bind,
        Functor.map, Except.map], dictGet_none hd0⟩
  | some p0 =>
  cases hd5 : dictGet g.positions 5 with
  | none =>
    exact Or.inr ⟨5, by decide,
      by simp [MandalaGrid.display, hd1, hd2, hd3, hd6, hd0, hd5, Bind.bind, Except.bind,
        Functor.map, Except.map], dictGet_none hd5⟩
  | some p5 =>
  cases hd7 : dictGet g.positions 7 with
  | none =>
    exact Or.inr ⟨7, by decide,
      by simp [MandalaGrid.display, hd1, hd2, hd3, hd6, hd0, hd5, hd7, Bind.bind, Except.bind,
        Functor.map, Except.map], dictGet_none hd7⟩
  | some p7 =>
  cases hd8 : dictGet g.positions 8 with
  | none =>
    exact Or.inr ⟨8, by decide,
      by simp [MandalaGrid.display, hd1, hd2, hd3, hd6, hd0, hd5, hd7, hd8, Bind.bind,
        Except.bind, Functor.map, Except.map], dictGet_none hd8⟩
  | some p8 =>
  cases hd4 : dictGet g.positions 4 with
  | none =>
    exact Or.inr ⟨4, by decide,
      by simp [MandalaGrid.display, hd1, hd2, hd3, hd6, hd0, hd5, hd7, hd8, hd4, Bind.bind,
        Except.bind, Functor.map, Except.map], dictGet_none hd4⟩
  | some p4 =>
    refine Or.inl ⟨?_, ?_⟩
    · simp [MandalaGrid.display, hd1, hd2, hd3, hd6, hd0, hd5, hd7, hd8, hd4, Bind.bind,
        Except.bind, Functor.map, Except.map, Pure.pure, Except.pure, Except.isOk,
        Except.toBool]
    · intro i hi
      fin_cases hi
      · exact dictGet_mem_index hd0
      · exact dictGet_mem_index hd1
      · exact dictGet_mem_index hd2
      · exact dictGet_mem_index hd3
      · exact dictGet_mem_index hd4
      · exact dictGet_mem_index hd5
      · exact dictGet_mem_index hd6
      · exact dictGet_mem_index hd7
      · exact dictGet_mem_index hd8

theorem mirror_isOk_iff (g : MandalaGrid) :
    (mirror_analysis g).isOk = true ↔ ∃ p ∈ g.positions, p.index = 0 := by
  cases h : g.get 0 with
  | ok center =>
    have h2 := findPos_ok h
    simp [mirror_analysis, h, Except.isOk, Except.toBool]
    exact ⟨center, h2.2, h2.1⟩
  | error e =>
    have he := findPos_error_eq h
    subst he
    have h3 := findPos_error_iff.mp h
    simp [mirror_analysis, h, Except.isOk, Except.toBool]
    exact h3

/-- C10: `display` succeeds exactly on grids providing a position for every
index 0–8 and otherwise fails with the lookup error for a missing index;
`mirror_analysis` succeeds exactly on grids having a center (index 0); yet
`from_json` happily loads a grid with a single position (index 3 only), on
which both `display` and `mirror_analysis` fail. -/
theorem claim_C10_partiality :
    (∀ g : MandalaGrid, (g.display).isOk = true ↔
        ∀ i ∈ nineIndices, ∃ p ∈ g.positions, p.index = i) ∧
    (∀ g : MandalaGrid, ¬ ((g.display).isOk = true) →
        ∃ i ∈ nineIndices, g.display = Except.error (GridError.notFound i) ∧
          ∀ p ∈ g.positions, p.index ≠ i) ∧
    (∀ g : MandalaGrid, (mirror_analysis g).isOk = true ↔ ∃ p ∈ g.positions, p.index = 0) ∧
    MandalaGrid.from_json soloGrid.to_dict = Except.ok soloGrid ∧
    (soloGrid.display).isOk = false ∧
    (mirror_analysis soloGrid).isOk = false := by
  refine ⟨?_, ?_, mirror_isOk_iff, by decide, by decide, by decide⟩
  · intro g
    constructor
    · intro h
      rcases display_total_or_error g with ⟨_, hall⟩ | ⟨i, _, herr, _⟩
      · exact hall
      · rw [herr] at h
        exact absurd h (by simp [Except.isOk, Except.toBool])
    · intro hall
      rcases display_total_or_error g with ⟨hok, _⟩ | ⟨i, hi, _, habs⟩
      · exact hok
      · obtain ⟨p, hp, hpi⟩ := hall i hi
        exact absurd hpi (habs p hp)
  · intro g h
    rcases display_total_or_error g with ⟨hok, _⟩ | hcase
    · exact absurd hok h
    · exact hcase

/-- Witness for C10: the error conjunct applied to `soloGrid`, whose display
fails with a lookup error for a concrete missing index. -/
theorem claim_C10_partiality_witness :
    ∃ i ∈ nineIndices, soloGrid.display = Except.error (GridError.notFound i) ∧
      ∀ p ∈ soloGrid.positions, p.index ≠ i :=
  claim_C10_partiality.2.1 soloGrid (by decide)
